import Mathlib

set_option maxHeartbeats 1000000
set_option linter.unusedVariables false

/-!
Shallow embedding of the carely elder-care repository's core:
the entity store (`app/database/models.py`), its CRUD layer
(`app/database/crud.py`), the conversation-memory summarizer
(`app/memory/conversation_store.py`) and the Telegram notification
sender (`utils/telegram_notification.py`).

Modelling conventions:
* a naive Python `datetime` is a pair (calendar-day ordinal, second of day);
  `timedelta(days = d)` arithmetic shifts only the day component;
* Python `float` arithmetic (sentiment scores, adherence rate) is modelled
  by exact rationals `Rat`;
* SQL autoincrement ids are modelled as `length + 1` of the table list;
* a fallible Python function that can `raise` is embedded with `Except`;
  a function whose body cannot raise is embedded as a total function.
-/

/-- A naive `datetime` instant: calendar-day ordinal plus second-of-day.
`datetime.now()` is passed in explicitly as a `now : DT` argument. -/
structure DT where
  day : Int
  sid : Int
deriving DecidableEq, Repr

/-- `a <= b` on instants, lexicographic on (day, second-of-day). -/
def DT.le (a b : DT) : Bool :=
  decide (a.day < b.day ∨ (a.day = b.day ∧ a.sid ≤ b.sid))

/-- `t - timedelta(days = d)`: shifts the day component only. -/
def DT.subDays (t : DT) (d : Int) : DT :=
  ⟨t.day - d, t.sid⟩

/-- Difference `a - b` in seconds (one day = 86400 s), used for grace-period
comparisons. -/
def DT.diffSeconds (a b : DT) : Int :=
  (a.day - b.day) * 86400 + (a.sid - b.sid)

/-- `conv.timestamp.hour` for time-of-day bucketing. -/
def DT.hour (t : DT) : Int :=
  t.sid / 3600

/-- Row of table `user` (`models.py`). -/
structure User where
  id : Nat
  name : String
  email : Option String
  phone : Option String
  preferences : Option String
  emergency_contact : Option String
  telegram_chat_id : Option String
  user_type : String
  password_hash : Option String
  created_at : DT
deriving DecidableEq, Repr

/-- Row of table `medication` (`models.py`); `schedule_times` is kept as the
JSON string the source stores. -/
structure Medication where
  id : Nat
  user_id : Nat
  name : String
  dosage : String
  frequency : String
  schedule_times : String
  instructions : Option String
  active : Bool
  created_at : DT
deriving DecidableEq, Repr

/-- Row of table `conversation` (`models.py`); `sentiment_score ∈ [-1,1]` is a
Python float, modelled as `Rat`. -/
structure Conversation where
  id : Nat
  user_id : Nat
  message : String
  response : String
  sentiment_score : Option Rat
  sentiment_label : Option String
  conversation_type : String
  timestamp : DT
deriving DecidableEq, Repr

/-- Row of table `reminder` (`models.py`). -/
structure Reminder where
  id : Nat
  user_id : Nat
  reminder_type : String
  title : String
  message : String
  scheduled_time : DT
  completed : Bool
  completed_at : Option DT
  medication_id : Option Nat
  created_at : DT
deriving DecidableEq, Repr

/-- Row of table `medicationlog` (`models.py`). -/
structure MedicationLog where
  id : Nat
  user_id : Nat
  medication_id : Nat
  scheduled_time : DT
  taken_time : Option DT
  status : String
  notes : Option String
  created_at : DT
deriving DecidableEq, Repr

/-- Row of table `caregiveralert` (`models.py`). -/
structure CaregiverAlert where
  id : Nat
  user_id : Nat
  alert_type : String
  severity : String
  title : String
  description : String
  resolved : Bool
  resolved_at : Option DT
  created_at : DT
deriving DecidableEq, Repr

/-- The entity store: one list per table touched by the claims. -/
structure Store where
  users : List User
  medications : List Medication
  conversations : List Conversation
  reminders : List Reminder
  medication_logs : List MedicationLog
  caregiver_alerts : List CaregiverAlert
deriving DecidableEq, Repr

/-- Result record of `MedicationLogCRUD.get_medication_adherence`
(`crud.py` lines 188-208): the returned dict, with the Python float
`adherence_rate` modelled as a `Rat`. -/
structure AdherenceStats where
  total : Nat
  taken : Nat
  missed : Nat
  adherence_rate : Rat
  logs : List MedicationLog
deriving DecidableEq, Repr

/-- `MedicationLogCRUD.get_medication_adherence(user_id, days)` (`crud.py`
lines 188-208).  The body raises nothing: it filters the `medicationlog`
table by `user_id == user_id and scheduled_time >= now - timedelta(days=days)`
(note: no upper bound on `scheduled_time`, and no check that `user_id`
references an existing `user` row, and no validation of `days`), then counts
statuses and divides. -/
def get_medication_adherence (store_logs : List MedicationLog) (user_id : Nat)
    (days : Int) (now : DT) : AdherenceStats :=
  let cutoff_date := now.subDays days
  let logs := store_logs.filter
    (fun log => log.user_id == user_id && DT.le cutoff_date log.scheduled_time)
  let total := logs.length
  let taken := (logs.filter (fun log => log.status == "taken")).length
  let missed := (logs.filter (fun log => log.status == "missed")).length
  { total := total
    taken := taken
    missed := missed
    adherence_rate := if total > 0 then ((taken : Rat) / (total : Rat)) * 100 else 0
    logs := logs }

/-- `ReminderCRUD.get_pending_reminders(user_id)` (`crud.py` lines 142-152).
`user_id` defaults to `None`; the extra user filter is applied under Python
truthiness (`if user_id:`), so both `None` and `0` skip it. -/
def get_pending_reminders (store_reminders : List Reminder)
    (user_id : Option Nat) (now : DT) : List Reminder :=
  let base := store_reminders.filter
    (fun r => r.completed == false && DT.le r.scheduled_time now)
  match user_id with
  | none => base
  | some uid => if uid == 0 then base else base.filter (fun r => r.user_id == uid)

/-- `MedicationLogCRUD.log_medication_taken` (`crud.py` lines 167-185):
inserts a new `medicationlog` row with
`taken_time = taken_time or datetime.now()` (Python truthiness: a `datetime`
is always truthy, so only an omitted/`None` argument is replaced by `now`). -/
def log_medication_taken (s : Store) (user_id medication_id : Nat)
    (scheduled_time : DT) (taken_time : Option DT) (status : String)
    (notes : Option String) (now : DT) : Store :=
  let log : MedicationLog :=
    { id := s.medication_logs.length + 1
      user_id := user_id
      medication_id := medication_id
      scheduled_time := scheduled_time
      taken_time := some (taken_time.getD now)
      status := status
      notes := notes
      created_at := now }
  { s with medication_logs := s.medication_logs ++ [log] }

/-- `ReminderCRUD.create_reminder` (`crud.py` lines 124-140): inserts a new
`reminder` row; `completed`/`completed_at` take the model defaults
`False`/`None` (`models.py` lines 50-51). -/
def create_reminder (s : Store) (user_id : Nat)
    (reminder_type title message : String) (scheduled_time : DT)
    (medication_id : Option Nat) (now : DT) : Store :=
  let r : Reminder :=
    { id := s.reminders.length + 1
      user_id := user_id
      reminder_type := reminder_type
      title := title
      message := message
      scheduled_time := scheduled_time
      completed := false
      completed_at := none
      medication_id := medication_id
      created_at := now }
  { s with reminders := s.reminders ++ [r] }

/-- `ReminderCRUD.complete_reminder` (`crud.py` lines 154-165):
`session.get(Reminder, id)` then sets `completed = True` and
`completed_at = datetime.now()` together.  Lookup-by-primary-key/update is
modelled as a map over the rows with the matching id. -/
def complete_reminder (s : Store) (reminder_id : Nat) (now : DT) : Store :=
  { s with reminders := s.reminders.map (fun r =>
      if r.id == reminder_id then
        { r with completed := true, completed_at := some now }
      else r) }

/-- `CaregiverAlertCRUD.resolve_alert` (`crud.py` lines 238-249). -/
def resolve_alert (s : Store) (alert_id : Nat) (now : DT) : Store :=
  { s with caregiver_alerts := s.caregiver_alerts.map (fun a =>
      if a.id == alert_id then
        { a with resolved := true, resolved_at := some now }
      else a) }

/-- One write operation of the store layer.  The constructors are the write
entry points of `crud.py` (the API routes in `routes.py` only forward to
them: e.g. `POST /medications/log/` calls `log_medication_taken` with
`scheduled_time = datetime.now()` and the requested status).
`schedulerMarkMissed` is the only non-CRUD constructor; see its `apply`
case. -/
inductive StoreOp where
  | createUser (name : String)
      (email phone preferences emergency_contact : Option String)
  | createMedication (user_id : Nat) (name dosage frequency : String)
      (schedule_times : String) (instructions : Option String)
  | updateMedication (medication_id : Nat) (upd : Medication → Medication)
  | saveConversation (user_id : Nat) (message response : String)
      (sentiment_score : Option Rat) (sentiment_label : Option String)
      (conversation_type : String)
  | createReminder (user_id : Nat) (reminder_type title message : String)
      (scheduled_time : DT) (medication_id : Option Nat)
  | completeReminder (reminder_id : Nat)
  | logMedicationTaken (user_id medication_id : Nat) (scheduled_time : DT)
      (taken_time : Option DT) (status : String) (notes : Option String)
  | createAlert (user_id : Nat) (alert_type title description severity : String)
  | resolveAlert (alert_id : Nat)
  | schedulerMarkMissed (grace : Int)

/-- `True` for the operations exposed by `crud.py`; `false` only for the
spec-modelled scheduler transition. -/
def StoreOp.isCrud : StoreOp → Bool
  | .schedulerMarkMissed _ => false
  | _ => true

/-- Effect of one operation on the store, each case translated from the
corresponding `crud.py` method (`UserCRUD.create_user`,
`MedicationCRUD.create_medication`, `MedicationCRUD.update_medication` with
its `setattr` kwargs modelled as an arbitrary row transformer,
`ConversationCRUD.save_conversation`, `ReminderCRUD.create_reminder`,
`ReminderCRUD.complete_reminder`, `MedicationLogCRUD.log_medication_taken`,
`CaregiverAlertCRUD.create_alert`, `CaregiverAlertCRUD.resolve_alert`).

`schedulerMarkMissed` is Modelled from the spec: the file
`app/scheduling/reminder_scheduler.py` named by `main.py` is absent from the
sources; spec section 4.2 step 3 says the scheduler transitions every
`pending` MedicationLog whose `scheduled_time` is more than a grace period
in the past to `missed`. -/
def StoreOp.apply (op : StoreOp) (now : DT) (s : Store) : Store :=
  match op with
  | .createUser name email phone preferences emergency_contact =>
      { s with users := s.users ++
          [{ id := s.users.length + 1
             name := name
             email := email
             phone := phone
             preferences := preferences
             emergency_contact := emergency_contact
             telegram_chat_id := none
             user_type := "patient"
             password_hash := none
             created_at := now }] }
  | .createMedication user_id name dosage frequency schedule_times instructions =>
      { s with medications := s.medications ++
          [{ id := s.medications.length + 1
             user_id := user_id
             name := name
             dosage := dosage
             frequency := frequency
             schedule_times := schedule_times
             instructions := instructions
             active := true
             created_at := now }] }
  | .updateMedication medication_id upd =>
      { s with medications := s.medications.map (fun m =>
          if m.id == medication_id then upd m else m) }
  | .saveConversation user_id message response sc sl conversation_type =>
      { s with conversations := s.conversations ++
          [{ id := s.conversations.length + 1
             user_id := user_id
             message := message
             response := response
             sentiment_score := sc
             sentiment_label := sl
             conversation_type := conversation_type
             timestamp := now }] }
  | .createReminder user_id reminder_type title message scheduled_time medication_id =>
      create_reminder s user_id reminder_type title message scheduled_time
        medication_id now
  | .completeReminder reminder_id =>
      complete_reminder s reminder_id now
  | .logMedicationTaken user_id medication_id scheduled_time taken_time status notes =>
      log_medication_taken s user_id medication_id scheduled_time taken_time
        status notes now
  | .createAlert user_id alert_type title description severity =>
      { s with caregiver_alerts := s.caregiver_alerts ++
          [{ id := s.caregiver_alerts.length + 1
             user_id := user_id
             alert_type := alert_type
             severity := severity
             title := title
             description := description
             resolved := false
             resolved_at := none
             created_at := now }] }
  | .resolveAlert alert_id =>
      resolve_alert s alert_id now
  | .schedulerMarkMissed grace =>
      { s with medication_logs := s.medication_logs.map (fun log =>
          if log.status == "pending" &&
             decide (grace < DT.diffSeconds now log.scheduled_time) then
            { log with status := "missed" }
          else log) }

/-- Run a sequence of timestamped operations left to right. -/
def applyAll (ops : List (StoreOp × DT)) (s : Store) : Store :=
  ops.foldl (fun st p => p.1.apply p.2 st) s

/-- Result dict of `TelegramNotifier.send_message`
(`utils/telegram_notification.py` lines 10-45): always carries a `success`
flag; `error` is present exactly on the failure paths and `message_id` only
on the success path. -/
structure SendResult where
  success : Bool
  error : Option String
  message_id : Option Nat
deriving DecidableEq, Repr

/-- Outcome of the `requests.post` + `response.json()` transport round trip
inside the `try` block: either some exception (anything `except Exception`
catches, carried as its string rendering) or a parsed JSON reply with its
`ok` flag, optional `description` and optional `result.message_id`. -/
inductive Transport where
  | exc (e : String)
  | resp (ok : Bool) (description : Option String) (message_id : Option Nat)
deriving DecidableEq, Repr

/-- `TelegramNotifier.send_message(chat_id, message, parse_mode)`
(`utils/telegram_notification.py` lines 10-45).  `bot_token` is
`os.getenv("TELEGRAM_BOT_TOKEN")` read in `__init__`; `if not self.bot_token`
and `if not chat_id` are Python truthiness checks, so `None` and the empty
string both fail them.  Every exception of the transport is caught and
turned into a failure record, so the function as a whole is total. -/
def send_message (bot_token : Option String) (chat_id : String)
    (message : String) (parse_mode : String) (transport : Transport) :
    SendResult :=
  if bot_token.getD "" == "" then
    { success := false, error := some "Telegram bot token not configured"
      message_id := none }
  else if chat_id == "" then
    { success := false, error := some "Chat ID not provided"
      message_id := none }
  else
    match transport with
    | .exc e =>
        { success := false, error := some e, message_id := none }
    | .resp ok description message_id =>
        if ok then
          { success := true, error := none, message_id := message_id }
        else
          { success := false, error := some (description.getD "Unknown error")
            message_id := none }

/-- Python `needle in hay` on the underlying character lists. -/
def subOccurs (n : List Char) : List Char → Bool
  | [] => n.isEmpty
  | c :: t => n.isPrefixOf (c :: t) || subOccurs n t

/-- Python substring containment `needle in hay`. -/
def strIn (needle hay : String) : Bool :=
  subOccurs needle.data hay.data

/-- Non-overlapping substring occurrence count, fueled by the haystack
length (each recursive call strictly shrinks the haystack when the needle
is non-empty). -/
def subCountFuel (n : List Char) : Nat → List Char → Nat
  | 0, _ => 0
  | _ + 1, [] => 0
  | fuel + 1, c :: t =>
      if n.isPrefixOf (c :: t) then
        1 + subCountFuel n fuel ((c :: t).drop n.length)
      else
        subCountFuel n fuel t

/-- Python `hay.count(needle)`: non-overlapping occurrences, scanning left
to right (`str.count` also yields `len + 1` for an empty needle). -/
def strCount (hay needle : String) : Nat :=
  if needle.data.isEmpty then hay.data.length + 1
  else subCountFuel needle.data hay.data.length hay.data

/-- Python `s.split()`: split on whitespace, discarding empty fragments. -/
def pySplit (s : String) : List String :=
  (s.split Char.isWhitespace).filter (fun w => w != "")

/-- Python `s.capitalize()`: first character upper-cased, the rest
lower-cased. -/
def pyCapitalize (s : String) : String :=
  match s.data with
  | [] => ""
  | c :: t => ⟨c.toUpper :: t.map Char.toLower⟩

/-- First-occurrence-order deduplication.  CPython iterates a `set` in an
unspecified hash order; the claims never depend on the order of these
lists, and the embedding fixes insertion order. -/
def dedupKeep [BEq α] (l : List α) : List α :=
  l.foldl (fun acc a => if acc.contains a then acc else acc ++ [a]) []

/-- Python `l[-k:]`: the last `k` elements (the whole list when shorter). -/
def pyTakeLast (n : Nat) (l : List α) : List α :=
  l.drop (l.length - n)

/-- Python `>` on float lists: lexicographic, a strict prefix is smaller. -/
def pyListGt : List Rat → List Rat → Bool
  | [], _ => false
  | _ :: _, [] => true
  | a :: as, b :: bs =>
      if a > b then true else if a < b then false else pyListGt as bs

/-- A dynamically-typed Python value as returned by the summarizer's
analysis helpers (dicts keep insertion order, as in Python 3.7+). -/
inductive PyVal where
  | int (n : Int)
  | rat (q : Rat)
  | str (s : String)
  | boolean (b : Bool)
  | list (l : List PyVal)
  | dict (d : List (String × PyVal))
deriving Repr

/-- `ConversationCRUD.get_user_conversations(user_id, limit)` (`crud.py`
lines 102-109): the user's rows ordered by `timestamp` descending, first
`limit` of them. -/
def get_user_conversations (store_conversations : List Conversation)
    (user_id : Nat) (limit : Nat) : List Conversation :=
  ((store_conversations.filter (fun c => c.user_id == user_id)).mergeSort
      (fun a b => DT.le b.timestamp a.timestamp)).take limit

/-- `ConversationMemoryStore._sentiment_to_description`
(`conversation_store.py` lines 81-92). -/
def _sentiment_to_description (score : Rat) : String :=
  if score > 0.6 then "Very positive"
  else if score > 0.2 then "Positive"
  else if score > -0.2 then "Neutral"
  else if score > -0.6 then "Somewhat negative"
  else "Concerning/negative"

/-- The fixed `topic_keywords` table of
`ConversationMemoryStore._extract_topics` (`conversation_store.py`
lines 97-104), in source order. -/
def topic_keywords : List (String × List String) :=
  [("health", ["pain", "doctor", "hospital", "medicine", "sick", "health", "feel"]),
   ("family", ["family", "children", "grandchildren", "spouse", "daughter", "son"]),
   ("activities", ["walk", "exercise", "garden", "read", "watch", "hobby"]),
   ("sleep", ["sleep", "tired", "rest", "bed", "night"]),
   ("food", ["eat", "food", "hungry", "meal", "cook", "dinner", "lunch"]),
   ("social", ["friend", "visit", "call", "lonely", "social", "people"])]

/-- `ConversationMemoryStore._extract_topics` (`conversation_store.py`
lines 94-113): a topic is reported when any of its keywords occurs in the
lower-cased concatenation of the messages.  The Python `set` iteration
order is unspecified; the embedding reports topics in table order. -/
def _extract_topics (conversations : List Conversation) : List String :=
  let all_text := String.intercalate " "
    (conversations.map (fun c => c.message.toLower))
  (topic_keywords.filter (fun p => p.2.any (fun kw => strIn kw all_text))).map
    (fun p => p.1)

/-- The `med_indicators` list of
`ConversationMemoryStore._extract_medication_mentions`
(`conversation_store.py` line 120). -/
def med_indicators : List String :=
  ["pill", "medication", "medicine", "dose", "tablet", "take", "prescribed"]

/-- `ConversationMemoryStore._extract_medication_mentions`
(`conversation_store.py` lines 115-133): in every message containing a
medication indicator, collect the capitalized words longer than 4
characters outside the stop list; first 5 distinct ones (Python `set`
order fixed to first occurrence). -/
def _extract_medication_mentions (conversations : List Conversation) :
    List String :=
  let meds := conversations.foldl (fun acc c =>
    let text_lower := c.message.toLower
    if med_indicators.any (fun ind => strIn ind text_lower) then
      (pySplit text_lower).foldl (fun acc2 word =>
        if word.length > 4 &&
           !(["medicine", "medication", "tablet", "prescribed"].contains word)
        then acc2 ++ [pyCapitalize word]
        else acc2) acc
    else acc) []
  (dedupKeep meds).take 5

/-- `ConversationMemoryStore._analyze_mood_patterns`
(`conversation_store.py` lines 135-153).  Note the source's
`sentiments[-5:] > sentiments[:5]`: a Python lexicographic list
comparison. -/
def _analyze_mood_patterns (conversations : List Conversation) : PyVal :=
  if conversations.isEmpty then .dict []
  else
    let sentiments := conversations.filterMap (fun c => c.sentiment_score)
    if sentiments.isEmpty then .dict []
    else
      .dict
        [("average_mood",
            .rat (sentiments.foldl (fun a b => a + b) 0 / (sentiments.length : Rat))),
         ("mood_trend",
            .str (if pyListGt (pyTakeLast 5 sentiments) (sentiments.take 5)
                  then "improving" else "stable")),
         ("total_conversations", .int conversations.length),
         ("sentiment_distribution", .dict
            [("positive",
                .int ((sentiments.filter (fun s => decide (s > 0.2))).length)),
             ("neutral",
                .int ((sentiments.filter
                  (fun s => decide (-0.2 ≤ s ∧ s ≤ 0.2))).length)),
             ("negative",
                .int ((sentiments.filter (fun s => decide (s < -0.2))).length))])]

/-- The medication words of
`ConversationMemoryStore._analyze_medication_patterns`
(`conversation_store.py` line 160). -/
def med_pattern_words : List String :=
  ["medication", "pill", "medicine", "dose"]

/-- `ConversationMemoryStore._analyze_medication_patterns`
(`conversation_store.py` lines 155-169).  The concern filter
`c.sentiment_score and c.sentiment_score < -0.3` uses Python truthiness:
`None` and `0.0` are both falsy. -/
def _analyze_medication_patterns (conversations : List Conversation) : PyVal :=
  let med_conversations := conversations.filter (fun c =>
    c.conversation_type == "medication" ||
    med_pattern_words.any (fun w => strIn w c.message.toLower))
  .dict
    [("medication_discussions", .int med_conversations.length),
     ("recent_medication_concerns", .int
        ((pyTakeLast 10 med_conversations).filter (fun c =>
            match c.sentiment_score with
            | some sc => !(sc == 0) && decide (sc < -0.3)
            | none => false)).length)]

/-- The `concern_keywords` table of
`ConversationMemoryStore._extract_common_concerns`
(`conversation_store.py` lines 173-179), in source order. -/
def concern_keywords : List (String × List String) :=
  [("pain", ["pain", "hurt", "ache", "sore"]),
   ("sleep", ["sleep", "insomnia", "tired", "rest"]),
   ("loneliness", ["lonely", "alone", "isolated", "miss"]),
   ("confusion", ["confused", "forgot", "remember", "memory"]),
   ("anxiety", ["worried", "anxious", "scared", "nervous"])]

/-- `ConversationMemoryStore._extract_common_concerns`
(`conversation_store.py` lines 171-190): per-concern keyword occurrence
counts over the joined lower-cased messages, keep the positive ones, sort
keys by count descending (Python's `sorted` is stable), first 3. -/
def _extract_common_concerns (conversations : List Conversation) :
    List String :=
  let all_messages := String.intercalate " "
    (conversations.map (fun c => c.message.toLower))
  let concerns := (concern_keywords.map (fun p =>
      (p.1, p.2.foldl (fun n kw => n + strCount all_messages kw) 0))).filter
    (fun p => decide (p.2 > 0))
  ((concerns.mergeSort (fun a b => decide (b.2 ≤ a.2))).map (fun p => p.1)).take 3

/-- `ConversationMemoryStore._extract_preferred_topics`
(`conversation_store.py` lines 192-199); again a truthiness filter on the
score (`None`/`0.0` falsy). -/
def _extract_preferred_topics (conversations : List Conversation) :
    List String :=
  let positive_convs := conversations.filter (fun c =>
    match c.sentiment_score with
    | some sc => !(sc == 0) && decide (sc > 0.3)
    | none => false)
  (_extract_topics positive_convs).take 3

/-- `ConversationMemoryStore._find_most_active_time`
(`conversation_store.py` lines 216-234); `max(keys, key=...)` returns the
first key of maximal count in the insertion order
morning, afternoon, evening, night. -/
def _find_most_active_time (conversations : List Conversation) : String :=
  if conversations.isEmpty then "unknown"
  else
    let hrs := conversations.map (fun c => c.timestamp.hour)
    let morning := (hrs.filter (fun h => decide (6 ≤ h ∧ h < 12))).length
    let afternoon := (hrs.filter (fun h => decide (12 ≤ h ∧ h < 17))).length
    let evening := (hrs.filter (fun h => decide (17 ≤ h ∧ h < 22))).length
    let night := conversations.length - morning - afternoon - evening
    if morning ≥ afternoon ∧ morning ≥ evening ∧ morning ≥ night then "morning"
    else if afternoon ≥ evening ∧ afternoon ≥ night then "afternoon"
    else if evening ≥ night then "evening"
    else "night"

/-- `ConversationMemoryStore._analyze_communication_style`
(`conversation_store.py` lines 201-214). -/
def _analyze_communication_style (conversations : List Conversation) : PyVal :=
  if conversations.isEmpty then .dict []
  else
    let total_chars : Nat := conversations.foldl (fun n c => n + c.message.length) 0
    let avg_message_length : Rat := (total_chars : Rat) / (conversations.length : Rat)
    .dict
      [("average_message_length", .rat avg_message_length),
       ("prefers_short_messages", .boolean (decide (avg_message_length < 50))),
       ("total_conversations", .int conversations.length),
       ("most_active_time", .str (_find_most_active_time conversations))]

/-- `ConversationMemoryStore.get_important_context`
(`conversation_store.py` lines 67-79): a pure read of the user's last 100
conversations assembled into the five signal groups. -/
def get_important_context (store_conversations : List Conversation)
    (user_id : Nat) : PyVal :=
  let conversations := get_user_conversations store_conversations user_id 100
  .dict
    [("mood_patterns", _analyze_mood_patterns conversations),
     ("medication_patterns", _analyze_medication_patterns conversations),
     ("common_concerns",
        .list ((_extract_common_concerns conversations).map .str)),
     ("preferred_topics",
        .list ((_extract_preferred_topics conversations).map .str)),
     ("communication_style", _analyze_communication_style conversations)]

/-- Abstraction of `date.strftime("%B %d, %Y")`: renders the day ordinal as
text.  Only the rendering's injectivity could matter to the claims, none of
which inspect the formatted dates. -/
def formatDate (d : Int) : String :=
  toString d

/-- `ConversationMemoryStore.get_conversation_summary(days)`
(`conversation_store.py` lines 15-65): last 50 conversations, filtered to
the window, grouped by calendar day (dict insertion order, then
`sorted(..., reverse=True)` on the day), rendered section by section.
A pure read. -/
def get_conversation_summary (store_conversations : List Conversation)
    (user_id : Nat) (days : Int) (now : DT) : String :=
  let conversations := get_user_conversations store_conversations user_id 50
  let cutoff_date := now.subDays days
  let recent_convs := conversations.filter (fun c => DT.le cutoff_date c.timestamp)
  if recent_convs.isEmpty then "No recent conversations found."
  else
    let dates := dedupKeep (recent_convs.map (fun c => c.timestamp.day))
    let sorted_dates := dates.mergeSort (fun a b => decide (b ≤ a))
    sorted_dates.foldl (fun summary date =>
      let convs := recent_convs.filter (fun c => c.timestamp.day == date)
      let summary := summary ++ "=== " ++ formatDate date ++ " ===\n"
      let sentiments := convs.filterMap (fun c => c.sentiment_score)
      let summary :=
        if sentiments.isEmpty then summary
        else summary ++ "Overall mood: " ++
          _sentiment_to_description
            (sentiments.foldl (fun a b => a + b) 0 / (sentiments.length : Rat)) ++
          "\n"
      let topics := _extract_topics convs
      let summary :=
        if topics.isEmpty then summary
        else summary ++ "Topics discussed: " ++ String.intercalate ", " topics ++ "\n"
      let med_mentions := _extract_medication_mentions convs
      let summary :=
        if med_mentions.isEmpty then summary
        else summary ++ "Medications mentioned: " ++
          String.intercalate ", " med_mentions ++ "\n"
      summary ++ "\n")
      (s!"Conversation summary for {user_id} (last {days} days):\n\n")

/-- Shared concrete instant for witnesses and counterexamples. -/
def t0 : DT := ⟨0, 0⟩

/-- A concrete in-window log row (scheduled one day before `t0`). -/
def mkLog (i : Nat) (st : String) : MedicationLog :=
  { id := i
    user_id := 1
    medication_id := 1
    scheduled_time := ⟨-1, 0⟩
    taken_time := some ⟨-1, 0⟩
    status := st
    notes := none
    created_at := ⟨-1, 0⟩ }

/-- The log set of the spec's adherence example: 7 `taken`, 3 `missed`,
all within the last 7 days. -/
def c1_logs : List MedicationLog :=
  [mkLog 1 "taken", mkLog 2 "taken", mkLog 3 "taken", mkLog 4 "taken",
   mkLog 5 "taken", mkLog 6 "taken", mkLog 7 "taken",
   mkLog 8 "missed", mkLog 9 "missed", mkLog 10 "missed"]

/-- C1: for every user and window, `get_medication_adherence` reports
`total` = the number of selected logs, `taken`/`missed` = the number of
those with the respective status, and `adherence_rate` = taken/total*100
when `total > 0` and `0` on an empty selection (a normal result, not a
failure); on 7 `taken` + 3 `missed` it yields {total 10, taken 7, missed 3,
rate 70}. -/
theorem C1_adherence_counts_and_rate :
    (∀ (store_logs : List MedicationLog) (uid : Nat) (days : Int) (now : DT),
      (get_medication_adherence store_logs uid days now).total =
        store_logs.countP
          (fun l => l.user_id == uid && DT.le (now.subDays days) l.scheduled_time) ∧
      (get_medication_adherence store_logs uid days now).taken =
        (get_medication_adherence store_logs uid days now).logs.countP
          (fun l => l.status == "taken") ∧
      (get_medication_adherence store_logs uid days now).missed =
        (get_medication_adherence store_logs uid days now).logs.countP
          (fun l => l.status == "missed") ∧
      (get_medication_adherence store_logs uid days now).adherence_rate =
        (if (get_medication_adherence store_logs uid days now).total > 0 then
          ((get_medication_adherence store_logs uid days now).taken : Rat) /
            ((get_medication_adherence store_logs uid days now).total : Rat) * 100
        else 0)) ∧
    (get_medication_adherence c1_logs 1 7 t0).total = 10 ∧
    (get_medication_adherence c1_logs 1 7 t0).taken = 7 ∧
    (get_medication_adherence c1_logs 1 7 t0).missed = 3 ∧
    (get_medication_adherence c1_logs 1 7 t0).adherence_rate = 70 ∧
    get_medication_adherence [] 1 7 t0 =
      { total := 0, taken := 0, missed := 0, adherence_rate := 0, logs := [] } := by
  refine ⟨fun store_logs uid days now => ?_, ?_, ?_, ?_, ?_, ?_⟩
  · refine ⟨?_, ?_, ?_, ?_⟩ <;>
      simp [get_medication_adherence, List.countP_eq_length_filter]
  · decide
  · decide
  · decide
  · simp [get_medication_adherence, c1_logs, mkLog, t0, DT.subDays, DT.le]
    norm_num
  · decide

/-- A log row scheduled five days after `t0` (a future occurrence). -/
def futureLog : MedicationLog :=
  { id := 1
    user_id := 1
    medication_id := 1
    scheduled_time := ⟨5, 0⟩
    taken_time := some ⟨5, 0⟩
    status := "taken"
    notes := none
    created_at := t0 }

/-- C2 counterexample: the selection has no upper bound.  A log scheduled
strictly after `now` (so outside the claimed closed interval
`[now - window_days, now]`) is counted, and `window_days = 0` does not
yield an empty selection. -/
theorem C2_counterexample :
    DT.le futureLog.scheduled_time t0 = false ∧
    (get_medication_adherence [futureLog] 1 7 t0).total = 1 ∧
    (get_medication_adherence [futureLog] 1 0 t0).total = 1 := by
  decide

/-- C2 amended: `get_medication_adherence` counts exactly the user's logs
with `scheduled_time >= now - window_days`; there is no upper bound, so
future-scheduled logs are included, and `window_days = 0` selects every
log with `scheduled_time >= now` rather than nothing. -/
theorem C2_amended_lower_bound_only (store_logs : List MedicationLog)
    (uid : Nat) (days : Int) (now : DT) :
    (get_medication_adherence store_logs uid days now).total =
      store_logs.countP
        (fun l => l.user_id == uid && DT.le (now.subDays days) l.scheduled_time) ∧
    (get_medication_adherence store_logs uid 0 now).total =
      store_logs.countP
        (fun l => l.user_id == uid && DT.le now l.scheduled_time) := by
  constructor <;>
    simp [get_medication_adherence, List.countP_eq_length_filter, DT.subDays]

/-- C3 counterexample: no user-existence check is performed.  On a store
with no users at all (so `user_id = 1` references no existing `User`),
`get_medication_adherence` returns the normal zero-statistics record
instead of failing with `NotFoundError`; the function never reads the
`user` table (its inputs are the `medicationlog` rows alone). -/
theorem C3_counterexample :
    ([] : List User).all (fun u => u.id != 1) = true ∧
    get_medication_adherence [] 1 7 t0 =
      { total := 0, taken := 0, missed := 0, adherence_rate := 0, logs := [] } := by
  decide

/-- C3 amended: `get_medication_adherence` performs no existence check on
`user_id`; for a `user_id` that references no `User` row (and hence, by
foreign-key integrity, owns no logs) it returns the zero-statistics record
rather than failing. -/
theorem C3_amended_no_user_check (users : List User)
    (store_logs : List MedicationLog) (uid : Nat) (days : Int) (now : DT)
    (hu : ∀ u ∈ users, u.id ≠ uid)
    (hfk : ∀ l ∈ store_logs, l.user_id ≠ uid) :
    get_medication_adherence store_logs uid days now =
      { total := 0, taken := 0, missed := 0, adherence_rate := 0, logs := [] } := by
  have hfilter : store_logs.filter
      (fun l => l.user_id == uid && DT.le (now.subDays days) l.scheduled_time) = [] := by
    rw [List.filter_eq_nil_iff]
    intro l hl
    simp [hfk l hl]
  simp [get_medication_adherence, hfilter]

/-- Witness for the amended C3 at a concrete input: a store whose only user
has id 2 and whose only log belongs to user 2, queried for user 1. -/
theorem C3_amended_witness :
    get_medication_adherence [{ mkLog 1 "taken" with user_id := 2 }] 1 7 t0 =
      { total := 0, taken := 0, missed := 0, adherence_rate := 0, logs := [] } :=
  C3_amended_no_user_check [] [{ mkLog 1 "taken" with user_id := 2 }] 1 7 t0
    (by decide) (by decide)

/-- C7 counterexample: a negative `window_days` is not rejected.  With
`days = -1` the call returns the normal zero-statistics record (the cutoff
moves into the future), not a `ValidationError`. -/
theorem C7_counterexample :
    get_medication_adherence [mkLog 1 "taken"] 1 (-1) t0 =
      { total := 0, taken := 0, missed := 0, adherence_rate := 0, logs := [] } := by
  decide

/-- C7 amended: negative `window_days` is accepted, the cutoff
`now - window_days` then lies strictly in the future, so every log
scheduled at or before `now` is excluded and the call returns the
zero-statistics record (a normal result, not an error). -/
theorem C7_amended_negative_days (store_logs : List MedicationLog)
    (uid : Nat) (days : Int) (now : DT)
    (hneg : days < 0)
    (hpast : ∀ l ∈ store_logs, DT.le l.scheduled_time now = true) :
    get_medication_adherence store_logs uid days now =
      { total := 0, taken := 0, missed := 0, adherence_rate := 0, logs := [] } := by
  have hfilter : store_logs.filter
      (fun l => l.user_id == uid && DT.le (now.subDays days) l.scheduled_time) = [] := by
    rw [List.filter_eq_nil_iff]
    intro l hl
    have h1 := hpast l hl
    simp only [DT.le, decide_eq_true_eq] at h1
    simp only [DT.subDays, DT.le, Bool.and_eq_true, decide_eq_true_eq, not_and,
      beq_iff_eq]
    intro _
    omega
  simp [get_medication_adherence, hfilter]

/-- Witness for the amended C7 at a concrete input. -/
theorem C7_amended_witness :
    get_medication_adherence [mkLog 1 "taken"] 1 (-2) t0 =
      { total := 0, taken := 0, missed := 0, adherence_rate := 0, logs := [] } :=
  C7_amended_negative_days [mkLog 1 "taken"] 1 (-2) t0 (by decide) (by decide)

/-- C5: membership in the due-reminders query is exactly
`completed = false` and `scheduled_time <= now`, restricted to the given
user whenever a (truthy) user id is supplied; in particular no completed
and no future-scheduled reminder is ever returned. -/
theorem C5_pending_reminders_exact (store_reminders : List Reminder)
    (user_id : Option Nat) (now : DT) (r : Reminder) :
    r ∈ get_pending_reminders store_reminders user_id now ↔
      (r ∈ store_reminders ∧ r.completed = false ∧
        DT.le r.scheduled_time now = true ∧
        ∀ u, user_id = some u → u ≠ 0 → r.user_id = u) := by
  cases user_id with
  | none =>
      have hval : get_pending_reminders store_reminders none now =
          store_reminders.filter
            (fun x => x.completed == false && DT.le x.scheduled_time now) := rfl
      rw [hval]
      simp only [List.mem_filter, Bool.and_eq_true, beq_iff_eq]
      constructor
      · rintro ⟨hm, hc, hs⟩
        exact ⟨hm, hc, hs, fun u hu => by cases hu⟩
      · rintro ⟨hm, hc, hs, _⟩
        exact ⟨hm, hc, hs⟩
  | some u =>
      by_cases hu : u = 0
      · subst hu
        have hval : get_pending_reminders store_reminders (some 0) now =
            store_reminders.filter
              (fun x => x.completed == false && DT.le x.scheduled_time now) := rfl
        rw [hval]
        simp only [List.mem_filter, Bool.and_eq_true, beq_iff_eq]
        constructor
        · rintro ⟨hm, hc, hs⟩
          refine ⟨hm, hc, hs, fun v hv hv0 => ?_⟩
          cases hv
          exact absurd rfl hv0
        · rintro ⟨hm, hc, hs, _⟩
          exact ⟨hm, hc, hs⟩
      · have hval : get_pending_reminders store_reminders (some u) now =
            (store_reminders.filter
              (fun x => x.completed == false && DT.le x.scheduled_time now)).filter
              (fun x => x.user_id == u) := by
          simp only [get_pending_reminders]
          rw [if_neg]
          simpa using hu
        rw [hval]
        simp only [List.mem_filter, Bool.and_eq_true, beq_iff_eq]
        constructor
        · rintro ⟨⟨hm, hc, hs⟩, hid⟩
          exact ⟨hm, hc, hs, fun v hv _ => by cases hv; exact hid⟩
        · rintro ⟨hm, hc, hs, hall⟩
          exact ⟨⟨hm, hc, hs⟩, hall u rfl hu⟩

/-- C8: for every bot token, chat id, message text and transport outcome
(including any exception of the transport), `send_message` returns a
result record — the embedding is a total function, mirroring the
`try/except Exception` that guards the only raising code — whose `success`
flag is `false` exactly when an `error` string is present. -/
theorem C8_send_reports_failures (bot_token : Option String)
    (chat_id message parse_mode : String) (transport : Transport) :
    ((send_message bot_token chat_id message parse_mode transport).success = false ↔
      (send_message bot_token chat_id message parse_mode transport).error ≠ none) := by
  unfold send_message
  split
  · simp
  · split
    · simp
    · match transport with
      | .exc e => simp
      | .resp ok description message_id =>
          cases ok <;> simp

/-- The C6 invariant: in every `reminder` row, `completed_at` is non-null
exactly when `completed` is true. -/
def ReminderInv (s : Store) : Prop :=
  ∀ r ∈ s.reminders, (r.completed_at ≠ none ↔ r.completed = true)

/-- C6: the completed/completed_at invariant holds initially (creation
yields `completed = false`, `completed_at = None`), completion sets both
together to `true`/`now`, and every store operation preserves the
invariant. -/
theorem C6_completed_at_iff_completed :
    (∀ (op : StoreOp) (now : DT) (s : Store),
      ReminderInv s → ReminderInv (op.apply now s)) ∧
    (∀ (s : Store) (uid : Nat) (ty title msg : String) (sched : DT)
        (mid : Option Nat) (now : DT),
      ∃ newR : Reminder,
        (create_reminder s uid ty title msg sched mid now).reminders =
          s.reminders ++ [newR] ∧
        newR.completed = false ∧ newR.completed_at = none) ∧
    (∀ (s : Store) (rid : Nat) (now : DT) (r : Reminder),
      r ∈ (complete_reminder s rid now).reminders →
        r ∈ s.reminders ∨ (r.completed = true ∧ r.completed_at = some now)) := by
  refine ⟨?_, ?_, ?_⟩
  · intro op now s hs
    cases op with
    | createReminder uid ty title msg sched mid =>
        intro r hr
        rw [StoreOp.apply] at hr
        simp only [create_reminder, List.mem_append, List.mem_singleton] at hr
        rcases hr with hr | hr
        · exact hs r hr
        · subst hr
          simp
    | completeReminder rid =>
        intro r hr
        rw [StoreOp.apply] at hr
        simp only [complete_reminder, List.mem_map] at hr
        obtain ⟨a, ha, rfl⟩ := hr
        by_cases hid : (a.id == rid) = true
        · rw [if_pos hid]
          simp
        · rw [if_neg hid]
          exact hs a ha
    | createUser name email phone preferences emergency_contact =>
        intro r hr
        rw [StoreOp.apply] at hr
        exact hs r hr
    | createMedication uid name dosage frequency st instructions =>
        intro r hr
        rw [StoreOp.apply] at hr
        exact hs r hr
    | updateMedication mid upd =>
        intro r hr
        rw [StoreOp.apply] at hr
        exact hs r hr
    | saveConversation uid msg resp sc sl ct =>
        intro r hr
        rw [StoreOp.apply] at hr
        exact hs r hr
    | logMedicationTaken uid mid sched tk st notes =>
        intro r hr
        rw [StoreOp.apply] at hr
        simp only [log_medication_taken] at hr
        exact hs r hr
    | createAlert uid ty title desc sev =>
        intro r hr
        rw [StoreOp.apply] at hr
        exact hs r hr
    | resolveAlert aid =>
        intro r hr
        rw [StoreOp.apply] at hr
        simp only [resolve_alert] at hr
        exact hs r hr
    | schedulerMarkMissed grace =>
        intro r hr
        rw [StoreOp.apply] at hr
        exact hs r hr
  · intro s uid ty title msg sched mid now
    exact ⟨_, rfl, rfl, rfl⟩
  · intro s rid now r hr
    simp only [complete_reminder, List.mem_map] at hr
    obtain ⟨a, ha, rfl⟩ := hr
    by_cases hid : (a.id == rid) = true
    · rw [if_pos hid]
      right
      exact ⟨rfl, rfl⟩
    · rw [if_neg hid]
      left
      exact ha

/-- A concrete store with one pending reminder, for the C6 witness. -/
def c6_store : Store :=
  { users := []
    medications := []
    conversations := []
    reminders := [{ id := 1, user_id := 1, reminder_type := "medication"
                    title := "t", message := "m", scheduled_time := ⟨-1, 0⟩
                    completed := false, completed_at := none
                    medication_id := none, created_at := ⟨-1, 0⟩ }]
    medication_logs := []
    caregiver_alerts := [] }

/-- Witness for C6: the invariant holds on `c6_store` and is preserved by
completing its reminder. -/
theorem C6_witness :
    ReminderInv c6_store ∧
    ReminderInv (StoreOp.apply (.completeReminder 1) t0 c6_store) :=
  ⟨by unfold ReminderInv; decide,
   C6_completed_at_iff_completed.1 (.completeReminder 1) t0 c6_store
    (by unfold ReminderInv; decide)⟩

/-- The terminal statuses of a medication log (`models.py` line 61 comment:
pending, taken, missed, skipped). -/
def terminalStatuses : List String := ["taken", "missed", "skipped"]

/-- How a store operation may change one existing log row: `scheduled_time`
is immutable, a non-`pending` status is frozen, and any status change goes
from `pending` to a terminal status. -/
def LogEvolves (a b : MedicationLog) : Prop :=
  b.scheduled_time = a.scheduled_time ∧
  (a.status ≠ "pending" → b.status = a.status) ∧
  (b.status = a.status ∨ (a.status = "pending" ∧ b.status ∈ terminalStatuses))

theorem logEvolves_refl (a : MedicationLog) : LogEvolves a a :=
  ⟨rfl, fun _ => rfl, Or.inl rfl⟩

theorem logEvolves_trans {a b c : MedicationLog}
    (h1 : LogEvolves a b) (h2 : LogEvolves b c) : LogEvolves a c := by
  obtain ⟨hs1, hf1, hd1⟩ := h1
  obtain ⟨hs2, hf2, hd2⟩ := h2
  refine ⟨hs2.trans hs1, ?_, ?_⟩
  · intro ha
    have hb := hf1 ha
    rw [hf2 (by rw [hb]; exact ha), hb]
  · rcases hd2 with h2e | ⟨hbp, hct⟩
    · rcases hd1 with h1e | ⟨hap, hbt⟩
      · exact Or.inl (h2e.trans h1e)
      · exact Or.inr ⟨hap, h2e ▸ hbt⟩
    · rcases hd1 with h1e | ⟨hap, hbt⟩
      · exact Or.inr ⟨h1e ▸ hbp, hct⟩
      · rw [hbp] at hbt
        exact absurd hbt (by decide)

/-- Case analysis on how one operation reshapes the `medicationlog` table:
unchanged, one appended row, or a pointwise transformation that satisfies
`LogEvolves`. -/
theorem apply_medication_logs_shape (op : StoreOp) (now : DT) (s : Store) :
    (op.apply now s).medication_logs = s.medication_logs ∨
    (∃ l, (op.apply now s).medication_logs = s.medication_logs ++ [l]) ∨
    (∃ f : MedicationLog → MedicationLog,
      (op.apply now s).medication_logs = s.medication_logs.map f ∧
      ∀ a, LogEvolves a (f a)) := by
  cases op with
  | logMedicationTaken uid mid sched tk st notes =>
      exact Or.inr (Or.inl ⟨_, rfl⟩)
  | schedulerMarkMissed grace =>
      refine Or.inr (Or.inr ⟨_, rfl, fun a => ?_⟩)
      by_cases hc : (a.status == "pending" &&
          decide (grace < DT.diffSeconds now a.scheduled_time)) = true
      · rw [if_pos hc]
        simp only [Bool.and_eq_true, beq_iff_eq] at hc
        exact ⟨rfl, fun hne => absurd hc.1 hne,
          Or.inr ⟨hc.1, show "missed" ∈ terminalStatuses by decide⟩⟩
      · rw [if_neg hc]
        exact logEvolves_refl a
  | createUser name email phone preferences emergency_contact => exact Or.inl rfl
  | createMedication uid name dosage frequency st instructions => exact Or.inl rfl
  | updateMedication mid upd => exact Or.inl rfl
  | saveConversation uid msg resp sc sl ct => exact Or.inl rfl
  | createReminder uid ty title msg sched mid => exact Or.inl rfl
  | completeReminder rid => exact Or.inl rfl
  | createAlert uid ty title desc sev => exact Or.inl rfl
  | resolveAlert aid => exact Or.inl rfl

/-- One operation: every pre-existing log row evolves per `LogEvolves`. -/
theorem apply_log_evolves (op : StoreOp) (now : DT) (s : Store) (i : Nat)
    (h : i < s.medication_logs.length) :
    ∃ h2 : i < (op.apply now s).medication_logs.length,
      LogEvolves (s.medication_logs.get ⟨i, h⟩)
        ((op.apply now s).medication_logs.get ⟨i, h2⟩) := by
  rcases apply_medication_logs_shape op now s with heq | ⟨l, heq⟩ | ⟨f, heq, hf⟩
  · rw [heq]
    exact ⟨h, logEvolves_refl _⟩
  · rw [heq]
    have h2 : i < (s.medication_logs ++ [l]).length := by
      simp only [List.length_append, List.length_singleton]
      omega
    refine ⟨h2, ?_⟩
    have hg : (s.medication_logs ++ [l]).get ⟨i, h2⟩ =
        s.medication_logs.get ⟨i, h⟩ := by
      simp [List.getElem_append_left, h]
    rw [hg]
    exact logEvolves_refl _
  · rw [heq]
    have h2 : i < (s.medication_logs.map f).length := by simpa using h
    refine ⟨h2, ?_⟩
    have hg : (s.medication_logs.map f).get ⟨i, h2⟩ =
        f (s.medication_logs.get ⟨i, h⟩) := by
      simp
    rw [hg]
    exact hf _

/-- Any operation sequence: every pre-existing log row evolves per
`LogEvolves`. -/
theorem applyAll_log_evolves (ops : List (StoreOp × DT)) (s : Store) (i : Nat)
    (h : i < s.medication_logs.length) :
    ∃ h2 : i < (applyAll ops s).medication_logs.length,
      LogEvolves (s.medication_logs.get ⟨i, h⟩)
        ((applyAll ops s).medication_logs.get ⟨i, h2⟩) := by
  induction ops generalizing s with
  | nil => exact ⟨h, logEvolves_refl _⟩
  | cons p t ih =>
      obtain ⟨h1, he1⟩ := apply_log_evolves p.1 p.2 s i h
      obtain ⟨h2, he2⟩ := ih (p.1.apply p.2 s) h1
      exact ⟨h2, logEvolves_trans he1 he2⟩

/-- C4: under every sequence of store operations (all of `crud.py`'s writes
plus the spec-modelled scheduler missed-transition), an existing
MedicationLog row keeps its `scheduled_time` forever, a row whose status is
`taken`/`missed`/`skipped` never changes status again (in particular never
back to `pending`), and any status change goes from `pending` to one of
the terminal statuses — hence each transition happens at most once. -/
theorem C4_log_transitions_one_way (ops : List (StoreOp × DT)) (s : Store)
    (i : Nat) (h : i < s.medication_logs.length) :
    ∃ h2 : i < (applyAll ops s).medication_logs.length,
      ((applyAll ops s).medication_logs.get ⟨i, h2⟩).scheduled_time =
        (s.medication_logs.get ⟨i, h⟩).scheduled_time ∧
      ((s.medication_logs.get ⟨i, h⟩).status ≠ "pending" →
        ((applyAll ops s).medication_logs.get ⟨i, h2⟩).status =
          (s.medication_logs.get ⟨i, h⟩).status) ∧
      (((applyAll ops s).medication_logs.get ⟨i, h2⟩).status =
          (s.medication_logs.get ⟨i, h⟩).status ∨
        ((s.medication_logs.get ⟨i, h⟩).status = "pending" ∧
          ((applyAll ops s).medication_logs.get ⟨i, h2⟩).status ∈
            terminalStatuses)) := by
  obtain ⟨h2, he⟩ := applyAll_log_evolves ops s i h
  exact ⟨h2, he.1, he.2.1, he.2.2⟩

/-- A store holding a single `pending` log, for the C4 witness. -/
def c4_store : Store :=
  { users := []
    medications := []
    conversations := []
    reminders := []
    medication_logs := [{ id := 1, user_id := 1, medication_id := 1
                          scheduled_time := ⟨-1, 0⟩, taken_time := none
                          status := "pending", notes := none
                          created_at := ⟨-1, 0⟩ }]
    caregiver_alerts := [] }

/-- A concrete operation sequence for the C4 witness: the scheduler marks
overdue pending logs missed, then a new log is created. -/
def c4_ops : List (StoreOp × DT) :=
  [(.schedulerMarkMissed 7200, t0), (.logMedicationTaken 1 1 t0 none "taken" none, t0)]

/-- Witness for C4 at a concrete input. -/
theorem C4_witness :
    ∃ h : 0 < c4_store.medication_logs.length,
      ∃ h2 : 0 < (applyAll c4_ops c4_store).medication_logs.length,
        ((applyAll c4_ops c4_store).medication_logs.get ⟨0, h2⟩).scheduled_time =
          (c4_store.medication_logs.get ⟨0, h⟩).scheduled_time ∧
        ((c4_store.medication_logs.get ⟨0, h⟩).status ≠ "pending" →
          ((applyAll c4_ops c4_store).medication_logs.get ⟨0, h2⟩).status =
            (c4_store.medication_logs.get ⟨0, h⟩).status) ∧
        (((applyAll c4_ops c4_store).medication_logs.get ⟨0, h2⟩).status =
            (c4_store.medication_logs.get ⟨0, h⟩).status ∨
          ((c4_store.medication_logs.get ⟨0, h⟩).status = "pending" ∧
            ((applyAll c4_ops c4_store).medication_logs.get ⟨0, h2⟩).status ∈
              terminalStatuses)) :=
  ⟨by decide, C4_log_transitions_one_way c4_ops c4_store 0 (by decide)⟩

/-- The empty store, used by witnesses. -/
def emptyStore : Store :=
  { users := [], medications := [], conversations := [], reminders := []
    medication_logs := [], caregiver_alerts := [] }

/-- C10: `log_medication_taken` with `taken_time` omitted stores
`taken_time = now` whatever the requested status, and no CRUD operation
ever puts a log row with a null `taken_time` into the store (every log
in the table after a CRUD write either pre-existed or has a non-null
`taken_time`). -/
theorem C10_taken_time_always_set :
    (∀ (s : Store) (uid mid : Nat) (sched : DT) (status : String)
        (notes : Option String) (now : DT),
      ∃ newLog : MedicationLog,
        (log_medication_taken s uid mid sched none status notes now).medication_logs =
          s.medication_logs ++ [newLog] ∧
        newLog.taken_time = some now ∧ newLog.status = status) ∧
    (∀ (op : StoreOp) (now : DT) (s : Store) (l : MedicationLog),
      op.isCrud = true → l ∈ (op.apply now s).medication_logs →
        l ∈ s.medication_logs ∨ l.taken_time ≠ none) := by
  constructor
  · intro s uid mid sched status notes now
    exact ⟨_, rfl, rfl, rfl⟩
  · intro op now s l hcrud hl
    cases op with
    | logMedicationTaken uid mid sched tk st notes =>
        rw [StoreOp.apply] at hl
        simp only [log_medication_taken, List.mem_append, List.mem_singleton] at hl
        rcases hl with hl | hl
        · exact Or.inl hl
        · subst hl
          exact Or.inr (by simp)
    | schedulerMarkMissed grace =>
        simp [StoreOp.isCrud] at hcrud
    | createUser name email phone preferences emergency_contact =>
        exact Or.inl hl
    | createMedication uid name dosage frequency st instructions =>
        exact Or.inl hl
    | updateMedication mid upd => exact Or.inl hl
    | saveConversation uid msg resp sc sl ct => exact Or.inl hl
    | createReminder uid ty title msg sched mid => exact Or.inl hl
    | completeReminder rid => exact Or.inl hl
    | createAlert uid ty title desc sev => exact Or.inl hl
    | resolveAlert aid => exact Or.inl hl

/-- The log row `log_medication_taken` creates on the empty store at `t0`
with status `missed` and no `taken_time` argument. -/
def c10_log : MedicationLog :=
  { id := 1, user_id := 1, medication_id := 1, scheduled_time := t0
    taken_time := some t0, status := "missed", notes := none, created_at := t0 }

/-- Witness for C10's CRUD clause at a concrete input: a `missed` log
created with `taken_time` omitted still carries a non-null `taken_time`. -/
theorem C10_witness :
    StoreOp.isCrud (.logMedicationTaken 1 1 t0 none "missed" none) = true ∧
    (c10_log ∈ emptyStore.medication_logs ∨ c10_log.taken_time ≠ none) :=
  ⟨by decide,
   C10_taken_time_always_set.2 (.logMedicationTaken 1 1 t0 none "missed" none)
     t0 emptyStore c10_log (by decide) (by decide)⟩

/-- A user with no stored conversations gets the empty conversation list
from `get_user_conversations`. -/
theorem user_conversations_eq_nil (store_conversations : List Conversation)
    (uid limit : Nat)
    (h : store_conversations.filter (fun c => c.user_id == uid) = []) :
    get_user_conversations store_conversations uid limit = [] := by
  unfold get_user_conversations
  rw [h]
  simp

theorem mood_patterns_nil : _analyze_mood_patterns [] = .dict [] := rfl

theorem medication_patterns_nil :
    _analyze_medication_patterns [] =
      .dict [("medication_discussions", .int 0),
             ("recent_medication_concerns", .int 0)] := rfl

theorem common_concerns_nil : _extract_common_concerns [] = [] := by
  have h : ∀ (l : List (String × Nat)) (le : String × Nat → String × Nat → Bool),
      l = [] → ((l.mergeSort le).map (fun p => p.1)).take 3 = [] := by
    rintro l le rfl
    simp
  unfold _extract_common_concerns
  exact h _ _ (by decide)

theorem preferred_topics_nil : _extract_preferred_topics [] = [] := rfl

theorem communication_style_nil : _analyze_communication_style [] = .dict [] := rfl

/-- The summarizer's text form for a user with no conversations. -/
theorem summary_no_recent (store_conversations : List Conversation)
    (uid : Nat) (days : Int) (now : DT)
    (h : store_conversations.filter (fun c => c.user_id == uid) = []) :
    get_conversation_summary store_conversations uid days now =
      "No recent conversations found." := by
  simp only [get_conversation_summary]
  rw [user_conversations_eq_nil store_conversations uid 50 h]
  rfl

/-- The summarizer's structured form for a user with no conversations. -/
theorem context_without_conversations (store_conversations : List Conversation)
    (uid : Nat)
    (h : store_conversations.filter (fun c => c.user_id == uid) = []) :
    get_important_context store_conversations uid =
      .dict [("mood_patterns", .dict []),
             ("medication_patterns",
                .dict [("medication_discussions", .int 0),
                       ("recent_medication_concerns", .int 0)]),
             ("common_concerns", .list []),
             ("preferred_topics", .list []),
             ("communication_style", .dict [])] := by
  simp only [get_important_context]
  rw [user_conversations_eq_nil store_conversations uid 100 h,
    mood_patterns_nil, medication_patterns_nil, common_concerns_nil,
    preferred_topics_nil, communication_style_nil]
  rfl

/-- C9 counterexample: on an empty history the text form does return the
literal string, but the structured form does NOT return an empty dict for
every signal group: `medication_patterns` is a two-entry dict with zero
counts (and the concern/topic groups are lists). -/
theorem C9_counterexample :
    get_conversation_summary [] 1 7 t0 = "No recent conversations found." ∧
    get_important_context [] 1 =
      .dict [("mood_patterns", .dict []),
             ("medication_patterns",
                .dict [("medication_discussions", .int 0),
                       ("recent_medication_concerns", .int 0)]),
             ("common_concerns", .list []),
             ("preferred_topics", .list []),
             ("communication_style", .dict [])] ∧
    PyVal.dict [("medication_discussions", PyVal.int 0),
                ("recent_medication_concerns", PyVal.int 0)] ≠ PyVal.dict [] :=
  ⟨summary_no_recent [] 1 7 t0 rfl, context_without_conversations [] 1 rfl,
   by simp⟩

/-- C9 amended: for a user with no stored conversations, the text form
returns exactly "No recent conversations found." and the structured form
returns empty dicts for `mood_patterns` and `communication_style`, empty
lists for `common_concerns` and `preferred_topics`, and a
`medication_patterns` dict whose two counts are 0; both are total pure
reads (the embedding returns values without touching the store). -/
theorem C9_empty_history_outputs (store_conversations : List Conversation)
    (uid : Nat) (days : Int) (now : DT)
    (h : store_conversations.filter (fun c => c.user_id == uid) = []) :
    get_conversation_summary store_conversations uid days now =
      "No recent conversations found." ∧
    get_important_context store_conversations uid =
      .dict [("mood_patterns", .dict []),
             ("medication_patterns",
                .dict [("medication_discussions", .int 0),
                       ("recent_medication_concerns", .int 0)]),
             ("common_concerns", .list []),
             ("preferred_topics", .list []),
             ("communication_style", .dict [])] :=
  ⟨summary_no_recent store_conversations uid days now h,
   context_without_conversations store_conversations uid h⟩

/-- Witness for the amended C9 at a concrete input. -/
theorem C9_amended_witness :
    ([] : List Conversation).filter (fun c => c.user_id == 1) = [] ∧
    (get_conversation_summary [] 1 7 t0 = "No recent conversations found." ∧
     get_important_context [] 1 =
       .dict [("mood_patterns", .dict []),
              ("medication_patterns",
                 .dict [("medication_discussions", .int 0),
                        ("recent_medication_concerns", .int 0)]),
              ("common_concerns", .list []),
              ("preferred_topics", .list []),
              ("communication_style", .dict [])]) :=
  ⟨rfl, C9_empty_history_outputs [] 1 7 t0 rfl⟩
